import Mathlib

/-
  Shallow embedding of the model-lifecycle core of the dropout-prediction
  system: `integration.py` (DropoutPredictor), `real-time-monitoring.py`
  (RealTimeMonitor.send_alerts) and `model-maintaince.py` (ModelMaintenance).

  Opaque external library objects (the fitted sklearn model, scaler and
  label encoders, and the sklearn training routines) are modelled as
  abstract functions carried inside the artifact / training-environment
  structures; everything the repository's own code does (validation,
  encoding fallback, missing-feature defaulting, column reordering, risk
  banding, metric computation, drift rule, backup-then-save order, A/B
  decision rule) is translated concretely from the source.
-/

namespace DropoutSystem

/-- A Python value as it appears in a student-record dict: a string or a
number. Numbers are modelled as exact rationals. -/
inductive Value where
  | str (s : String)
  | num (q : ℚ)
deriving DecidableEq, Repr

/-- A raw student record: a dict from field name to value
(`student_data: Dict` in `integration.py`). -/
abbrev Record := List (String × Value)

/-- `student_data.get(key)`: first binding wins, like a Python dict built
from unique keys. -/
def Record.lookupField (r : Record) (k : String) : Option Value :=
  (r.find? (fun p => p.1 = k)).map (fun p => p.2)

/-- `student_data.get('student_id', 'unknown')` (integration.py line 86). -/
def Record.studentId (r : Record) : Value :=
  (r.lookupField "student_id").getD (Value.str "unknown")

/-- A fitted sklearn `LabelEncoder`: its known category set `classes_` and
its (opaque) numeric encoding of a known category. -/
structure Encoder where
  classes : List Value
  transform : Value → ℚ

/-- The model-artifact bundle loaded by `DropoutPredictor.__init__`
(`model`, `scaler`, `label_encoders`, `feature_names`). The sklearn model
is abstracted to its two scoring functions on a scaled feature row:
`predict` and `predict_proba(...)[0][1]`. -/
structure IArtifact where
  predict : List ℚ → ℚ
  predictProba : List ℚ → ℚ
  scaler : List ℚ → List ℚ
  label_encoders : List (String × Encoder)
  feature_names : List String

/-- Encoding of one categorical value (integration.py lines 37-38):
an unseen category is first replaced by the encoder's first known class,
then the encoder is applied. -/
def Encoder.encodeVal (e : Encoder) (v : Value) : ℚ :=
  e.transform (if v ∈ e.classes then v else e.classes.headD v)

/-- `DropoutPredictor.preprocess_new_student`: apply label encoders to the
categorical columns present in the record, default every feature of
`feature_names` missing from the record to 0, and reorder the columns to
exactly `feature_names` (columns outside `feature_names` are dropped by the
reorder). The result row may still hold raw strings in positions whose
column has no encoder. -/
def preprocessNewStudent (a : IArtifact) (r : Record) : List Value :=
  a.feature_names.map (fun f =>
    match r.lookupField f with
    | none => Value.num 0
    | some v =>
      match (a.label_encoders.find? (fun p => p.1 = f)).map (fun p => p.2) with
      | some e => Value.num (e.encodeVal v)
      | none => v)

/-- The numeric-dtype requirement of `scaler.transform`: a row that still
holds a raw string fails (this is where a malformed record raises in
Python). -/
def toNumericRow : List Value → Except String (List ℚ)
  | [] => Except.ok []
  | Value.num q :: vs => (toNumericRow vs).map (fun r => q :: r)
  | Value.str s :: _ =>
      Except.error ("could not convert string to float: " ++ s)

/-- The fixed risk-banding thresholds of `predict_dropout_risk`
(integration.py lines 66-71): probability < 0.3 is the low band "Green",
< 0.7 the medium band "Amber", otherwise the high band "Red". -/
def riskLevel (p : ℚ) : String :=
  if p < 0.3 then "Green"
  else if p < 0.7 then "Amber"
  else "Red"

/-- `DropoutPredictor.predict_dropout_risk`: preprocess, scale, predict,
take the dropout probability and derive the risk band. Any raised error
(here: a non-numeric value reaching the scaler) is propagated to the
caller. -/
def predictDropoutRisk (a : IArtifact) (r : Record) :
    Except String (ℚ × ℚ × String) :=
  match toNumericRow (preprocessNewStudent a r) with
  | Except.error e => Except.error e
  | Except.ok row =>
    let scaled := a.scaler row
    let prediction := a.predict scaled
    let probability := a.predictProba scaled
    Except.ok (prediction, probability, riskLevel probability)

/-- One entry of the list returned by `predict_batch`: either a result
dict `{student_id, prediction, probability, risk_level, timestamp}` or an
error dict `{student_id, error}`. -/
inductive BatchEntry where
  | ok (studentId : Value) (prediction probability : ℚ)
      (riskLv : String) (timestamp : ℕ)
  | err (studentId : Value) (msg : String)
deriving DecidableEq, Repr

/-- The `student_id` key present in both kinds of entry. -/
def BatchEntry.sid : BatchEntry → Value
  | BatchEntry.ok s _ _ _ _ => s
  | BatchEntry.err s _ => s

/-- `r.get('probability', 0)` as used by the monitor's alert filter:
error entries have no probability key and default to 0. -/
def BatchEntry.probOf : BatchEntry → ℚ
  | BatchEntry.ok _ _ p _ _ => p
  | BatchEntry.err _ _ => 0

/-- The `risk_level` field (error entries have none; empty placeholder). -/
def BatchEntry.riskOf : BatchEntry → String
  | BatchEntry.ok _ _ _ rl _ => rl
  | BatchEntry.err _ _ => ""

def BatchEntry.isOk : BatchEntry → Bool
  | BatchEntry.ok _ _ _ _ _ => true
  | BatchEntry.err _ _ => false

/-- `DropoutPredictor.predict_batch`: score each record independently; a
record whose scoring raises is captured as an error entry keyed by its
`student_id` and the loop continues. `datetime.now()` is modelled by a
clock that starts at `t` and ticks once per record. -/
def predictBatch (a : IArtifact) (t : ℕ) : List Record → List BatchEntry
  | [] => []
  | r :: rs =>
    (match predictDropoutRisk a r with
     | Except.ok (p, pr, rl) => BatchEntry.ok r.studentId p pr rl t
     | Except.error m => BatchEntry.err r.studentId m)
    :: predictBatch a (t + 1) rs

/-! ### Real-time monitor (`real-time-monitoring.py`) -/

/-- `self.high_risk_threshold = 0.7` (real-time-monitoring.py line 21). -/
def highRiskThreshold : ℚ := 0.7

/-- An alert handed to the notification collaborator:
`send_alert(recipient, subject, message)`; the message interpolates the
student's id, probability, risk level and timestamp. -/
structure Alert where
  recipient : String
  subject : String
  studentId : Value
  probability : ℚ
  riskLv : String
  timestamp : ℕ
deriving DecidableEq, Repr

/-- The alert built for one high-risk entry (lines 72-84). -/
def mkAlert (e : BatchEntry) : Alert :=
  { recipient := "mentor@school.edu"
    subject := "Student Dropout Risk Alert"
    studentId := e.sid
    probability := e.probOf
    riskLv := e.riskOf
    timestamp := match e with
                 | BatchEntry.ok _ _ _ _ ts => ts
                 | BatchEntry.err _ _ => 0 }

/-- `RealTimeMonitor.send_alerts`: filter the batch results to those with
`r.get('probability', 0) > high_risk_threshold` and dispatch one alert per
such student. -/
def sendAlerts (results : List BatchEntry) : List Alert :=
  (results.filter (fun r => highRiskThreshold < r.probOf)).map mkAlert

/-! ### Model maintenance (`model-maintaince.py`) -/

/-- A pandas DataFrame of numeric training/evaluation data: named columns
and aligned rows. -/
structure DataFrame where
  cols : List String
  rows : List (List ℚ)
deriving Repr

/-- `df.empty`: no rows. -/
def DataFrame.isEmptyDf (df : DataFrame) : Bool := df.rows.isEmpty

/-- The value of column `c` in a row (0 when the column is absent — only
used below for columns known to be present or defaulted). -/
def DataFrame.cellVal (df : DataFrame) (row : List ℚ) (c : String) : ℚ :=
  match df.cols.indexOf? c with
  | some i => row.getD i 0
  | none => 0

/-- `new_data[target_col]`: the label column as a list. -/
def DataFrame.getCol (df : DataFrame) (c : String) : List ℚ :=
  df.rows.map (fun r => df.cellVal r c)

/-- Feature reconciliation (model-maintaince.py lines 41-51, 113-123,
190-200): drop the target column, default every expected feature missing
from the data to 0, and reorder the columns to exactly the artifact's
`feature_names`. Each row becomes the feature vector in contract order. -/
def DataFrame.reconcile (df : DataFrame) (targetCol : String)
    (expected : List String) : List (List ℚ) :=
  df.rows.map (fun r =>
    expected.map (fun f => if f = targetCol then 0 else df.cellVal r f))

/-- `sklearn.metrics.accuracy_score`: fraction of matching entries. -/
def accuracyScore (y pred : List ℚ) : ℚ :=
  (((y.zip pred).countP (fun ab => ab.1 = ab.2)) : ℚ) / (y.length : ℚ)

/-- `sklearn.metrics.f1_score` for the binary positive class 1:
`2·TP / (2·TP + FP + FN)`, and 0 when that denominator is 0. -/
def f1Score (y pred : List ℚ) : ℚ :=
  let pairs := y.zip pred
  let tp : ℚ := pairs.countP (fun ab => ab.1 = 1 ∧ ab.2 = 1)
  let fp : ℚ := pairs.countP (fun ab => ¬ab.1 = 1 ∧ ab.2 = 1)
  let fnc : ℚ := pairs.countP (fun ab => ab.1 = 1 ∧ ¬ab.2 = 1)
  if 2 * tp + fp + fnc = 0 then 0 else 2 * tp / (2 * tp + fp + fnc)

/-- One entry of `self.performance_history` (model-maintaince.py
lines 63-68). -/
structure Snapshot where
  timestamp : ℕ
  accuracy : ℚ
  f1_score : ℚ
  samples : ℕ
deriving Repr

/-- The artifact dict persisted by `ModelMaintenance`: the sklearn model
and scaler abstracted to their transform functions, plus the inherited
encoders, the feature-order contract, and the retraining timestamp. -/
structure MMArtifacts where
  model : List ℚ → ℚ
  scaler : List ℚ → List ℚ
  label_encoders : List (String × Encoder)
  feature_names : List String
  retrained_at : Option ℕ

/-- The persistent state `ModelMaintenance` works against: the artifact
file at `model_path` (the active slot), the file at `model_path + \x7b
\x7d.backup` (the backup slot, `none` until first written), and the
in-process `performance_history`. -/
structure MMState where
  activeSlot : Option MMArtifacts
  backupSlot : Option MMArtifacts
  history : List Snapshot

/-- `ModelMaintenance.check_model_drift`: validate the batch, score it
with the active artifact, append a performance snapshot, and signal drift
when the previous snapshot's accuracy exceeds the new one by more than
0.05. Every failure path (empty data, missing target column, missing
model file) is caught and returns `false` with the state untouched. -/
def checkModelDrift (st : MMState) (df : DataFrame) (targetCol : String)
    (now : ℕ) : Bool × MMState :=
  if df.isEmptyDf then (false, st)
  else if ¬(targetCol ∈ df.cols) then (false, st)
  else
    match st.activeSlot with
    | none => (false, st)
    | some art =>
      let X := df.reconcile targetCol art.feature_names
      let y := df.getCol targetCol
      let preds := (X.map art.scaler).map art.model
      let acc := accuracyScore y preds
      let f1 := f1Score y preds
      let snap : Snapshot :=
        { timestamp := now, accuracy := acc, f1_score := f1
          samples := df.rows.length }
      let st2 : MMState := { st with history := st.history ++ [snap] }
      match st.history.getLast? with
      | some lastPerf =>
          if lastPerf.accuracy - acc > 0.05 then (true, st2) else (false, st2)
      | none => (false, st2)

/-- The failure modes of `retrain_model`: the `ValueError` precondition
failures (the spec's `InsufficientData` kind) and the missing model file. -/
inductive RetrainErr where
  | insufficientData (msg : String)
  | fileNotFound
deriving DecidableEq, Repr

/-- A write to the artifact store, in the order `retrain_model` performs
them: `joblib.dump(old_artifacts, backup_path)` then
`joblib.dump(new_artifacts, model_path)`. -/
inductive SlotWrite where
  | backup (a : MMArtifacts)
  | active (a : MMArtifacts)

/-- The opaque sklearn training routines used by `retrain_model`
(lines 126-138): the stratified 80/20 `train_test_split` with seed 42, the
freshly fitted scaler of the incumbent's class, and the
`GradientBoostingClassifier` fit. Each is an external collaborator; the
rest of the retraining pipeline is concrete. -/
structure TrainEnv where
  split : List (List ℚ) → List ℚ →
    (List (List ℚ) × List (List ℚ) × List ℚ × List ℚ)
  fitScaler : List (List ℚ) → (List ℚ → List ℚ)
  fitModel : List (List ℚ) → List ℚ → (List ℚ → ℚ)

/-- `ModelMaintenance.retrain_model`: validate (non-empty, target present,
≥ 10 rows — else `ValueError`), load the incumbent artifacts (else
`FileNotFoundError`), reconcile the features to the incumbent's contract,
split, scale (fit on the training split only), train, score the holdout,
back the incumbent up to the backup slot, save the new artifacts to the
active slot, and return the new model with its holdout accuracy. The
returned trace lists the artifact-store writes in program order. -/
def retrainModel (env : TrainEnv) (st : MMState) (df : DataFrame)
    (targetCol : String) (now : ℕ) :
    Except RetrainErr ((List ℚ → ℚ) × ℚ) × MMState × List SlotWrite :=
  if df.isEmptyDf then
    (Except.error (RetrainErr.insufficientData
      "No new data provided for retraining"), st, [])
  else if ¬(targetCol ∈ df.cols) then
    (Except.error (RetrainErr.insufficientData
      ("Target column " ++ targetCol ++ " not found in data")), st, [])
  else if df.rows.length < 10 then
    (Except.error (RetrainErr.insufficientData
      "Insufficient data for retraining (minimum 10 samples required)"),
     st, [])
  else
    match st.activeSlot with
    | none => (Except.error RetrainErr.fileNotFound, st, [])
    | some oldArtifacts =>
      let X := df.reconcile targetCol oldArtifacts.feature_names
      let y := df.getCol targetCol
      let parts := env.split X y
      let XTrain := parts.1
      let XTest := parts.2.1
      let yTrain := parts.2.2.1
      let yTest := parts.2.2.2
      let scaler := env.fitScaler XTrain
      let XTrainScaled := XTrain.map scaler
      let XTestScaled := XTest.map scaler
      let newModel := env.fitModel XTrainScaled yTrain
      let accuracy := accuracyScore yTest (XTestScaled.map newModel)
      let newArtifacts : MMArtifacts :=
        { model := newModel
          scaler := scaler
          label_encoders := oldArtifacts.label_encoders
          feature_names := oldArtifacts.feature_names
          retrained_at := some now }
      (Except.ok (newModel, accuracy),
       { st with activeSlot := some newArtifacts
                 backupSlot := some oldArtifacts },
       [SlotWrite.backup oldArtifacts, SlotWrite.active newArtifacts])

/-- The four metrics computed by `run_ab_test` on a valid batch, with the
incumbent's scaler and feature contract applied once to the shared test
rows: (old accuracy, new accuracy, old F1, new F1). -/
def abMetrics (newModel : List ℚ → ℚ) (df : DataFrame)
    (targetCol : String) (old : MMArtifacts) : ℚ × ℚ × ℚ × ℚ :=
  let X := df.reconcile targetCol old.feature_names
  let y := df.getCol targetCol
  let XScaled := X.map old.scaler
  let oldPreds := XScaled.map old.model
  let newPreds := XScaled.map newModel
  (accuracyScore y oldPreds, accuracyScore y newPreds,
   f1Score y oldPreds, f1Score y newPreds)

/-- The promotion decision of `run_ab_test` (lines 226-231): keep the new
model only if it beats the old one by more than 0.02 in accuracy AND in
F1. -/
def abDecision (oldAccuracy newAccuracy oldF1 newF1 : ℚ) : String :=
  if newAccuracy > oldAccuracy + 0.02 ∧ newF1 > oldF1 + 0.02 then "new"
  else "old"

/-- `ModelMaintenance.run_ab_test`: validate the test batch, score it with
both models, and decide by `abDecision`; every failure path (empty data,
missing target column via the caught `ValueError`, missing model file)
returns "old". -/
def runABTest (newModel : List ℚ → ℚ) (df : DataFrame)
    (targetCol : String) (st : MMState) : String :=
  if df.isEmptyDf then "old"
  else if ¬(targetCol ∈ df.cols) then "old"
  else
    match st.activeSlot with
    | none => "old"
    | some old =>
      let m := abMetrics newModel df targetCol old
      abDecision m.1 m.2.1 m.2.2.1 m.2.2.2

/-! ### Current / previous accuracy of a performance history -/

/-- The accuracy of the newest snapshot (0 when the history is empty). -/
def currAccuracy (l : List Snapshot) : ℚ :=
  ((l.getLast?).map Snapshot.accuracy).getD 0

/-- The accuracy of the snapshot before the newest (0 when there is none). -/
def prevAccuracy (l : List Snapshot) : ℚ :=
  ((l.dropLast.getLast?).map Snapshot.accuracy).getD 0

/-- A batch entry with its `timestamp` field cleared, for comparing two
scoring passes up to the wall clock. -/
def BatchEntry.eraseTime : BatchEntry → BatchEntry
  | BatchEntry.ok s p pr rl _ => BatchEntry.ok s p pr rl 0
  | BatchEntry.err s m => BatchEntry.err s m

/-! ### Concrete fixtures used by witnesses and counterexamples -/

/-- A loaded artifact whose opaque model always reports dropout
probability 0.7 (the exact band boundary). -/
def artBoundary : IArtifact :=
  { predict := fun _ => 1
    predictProba := fun _ => 0.7
    scaler := id
    label_encoders := []
    feature_names := ["x"] }

/-- A loaded artifact whose opaque model always reports probability 0.5. -/
def artHalf : IArtifact :=
  { predict := fun _ => 1
    predictProba := fun _ => 0.5
    scaler := id
    label_encoders := []
    feature_names := ["x"] }

/-- A well-formed student record. -/
def recDemo : Record :=
  [("student_id", Value.str "S1"), ("x", Value.num 1)]

/-- A well-formed record with the given id number and feature value. -/
def recGood (j : ℕ) : Record :=
  [("student_id", Value.str ("S" ++ toString j)), ("x", Value.num j)]

/-- A malformed record: its numeric feature `x` holds a raw string, which
raises inside `scaler.transform` when scored. -/
def recBad : Record :=
  [("student_id", Value.str "S3"), ("x", Value.str "bad")]

/-- A batch of five records whose third entry is malformed. -/
def batchFive : List Record :=
  [recGood 1, recGood 2, recBad, recGood 4, recGood 5]

/-- A maintenance artifact whose opaque model always predicts class 1. -/
def mmArtOne : MMArtifacts :=
  { model := fun _ => 1
    scaler := id
    label_encoders := []
    feature_names := ["x"]
    retrained_at := none }

/-- A maintenance artifact whose opaque model always predicts class 0. -/
def mmArtZero : MMArtifacts :=
  { model := fun _ => 0
    scaler := id
    label_encoders := []
    feature_names := ["x"]
    retrained_at := none }

/-- State with an active artifact, no backup, empty history. -/
def stPlain : MMState :=
  { activeSlot := some mmArtOne, backupSlot := none, history := [] }

/-- State whose active model always predicts 0, empty history. -/
def stZero : MMState :=
  { activeSlot := some mmArtZero, backupSlot := none, history := [] }

/-- State carrying one performance snapshot with accuracy 0.90. -/
def stDrift : MMState :=
  { activeSlot := some mmArtOne
    backupSlot := none
    history := [{ timestamp := 0, accuracy := 0.9, f1_score := 0.9
                  samples := 10 }] }

/-- 50 labeled rows of which 42 are class 1: the constant-1 model scores
accuracy 0.84 on them. -/
def df84 : DataFrame :=
  { cols := ["x", "is_active"]
    rows := (List.range 50).map (fun i => [(i : ℚ), if i < 42 then 1 else 0]) }

/-- 50 labeled rows of which 43 are class 1: the constant-1 model scores
accuracy 0.86 on them. -/
def df86 : DataFrame :=
  { cols := ["x", "is_active"]
    rows := (List.range 50).map (fun i => [(i : ℚ), if i < 43 then 1 else 0]) }

/-- A labeled frame with no rows. -/
def dfEmpty : DataFrame := { cols := ["x", "is_active"], rows := [] }

/-- A non-empty frame lacking the `is_active` label column. -/
def dfNoLabel : DataFrame := { cols := ["x"], rows := [[1]] }

/-- A valid 10-row training batch. -/
def dfTen : DataFrame :=
  { cols := ["x", "is_active"]
    rows := (List.range 10).map (fun i => [(i : ℚ), if i < 5 then 1 else 0]) }

/-- The spec's insufficient-data example: a 5-row training batch. -/
def dfFive : DataFrame :=
  { cols := ["x", "is_active"]
    rows := (List.range 5).map (fun i => [(i : ℚ), if i < 3 then 1 else 0]) }

/-- Three labeled rows, all of class 1. -/
def dfThree : DataFrame :=
  { cols := ["x", "is_active"]
    rows := (List.range 3).map (fun i => [(i : ℚ), 1]) }

/-- A concrete stand-in for the opaque sklearn training routines. -/
def envDemo : TrainEnv :=
  { split := fun X y => (X, X, y, y)
    fitScaler := fun _ => id
    fitModel := fun _ _ => fun _ => 1 }

/-!
### Helper lemmas
Batteries marks the `Rat` arithmetic operations irreducible; concrete
evaluation by `decide` needs them unfolded.
-/

attribute [local semireducible] Rat.mul Rat.add Rat.sub Rat.inv Rat.ofScientific

lemma riskLevel_green_iff (p : ℚ) : riskLevel p = "Green" ↔ p < 0.3 := by
  unfold riskLevel
  split_ifs with h1 h2 <;> simp_all

lemma riskLevel_amber_iff (p : ℚ) :
    riskLevel p = "Amber" ↔ 0.3 ≤ p ∧ p < 0.7 := by
  unfold riskLevel
  split_ifs with h1 h2 <;> simp_all

lemma riskLevel_red_iff (p : ℚ) : riskLevel p = "Red" ↔ 0.7 ≤ p := by
  unfold riskLevel
  split_ifs with h1 h2 <;> simp_all
  linarith

lemma predictDropoutRisk_ok_band (a : IArtifact) (r : Record)
    (pred prob : ℚ) (band : String)
    (h : predictDropoutRisk a r = Except.ok (pred, prob, band)) :
    band = riskLevel prob := by
  unfold predictDropoutRisk at h
  rcases hrow : toNumericRow (preprocessNewStudent a r) with e | row <;>
    rw [hrow] at h <;> simp_all
  obtain ⟨h1, h2, h3⟩ := h
  rw [← h3, h2]

lemma predictBatch_length (a : IArtifact) (t : ℕ) (rs : List Record) :
    (predictBatch a t rs).length = rs.length := by
  induction rs generalizing t with
  | nil => rfl
  | cons r rs ih => simp [predictBatch, ih (t + 1)]

lemma predictBatch_getElem (a : IArtifact) (t : ℕ) (rs : List Record)
    (i : ℕ) :
    (predictBatch a t rs)[i]? = (rs[i]?).map (fun r =>
      match predictDropoutRisk a r with
      | Except.ok (p, pr, rl) => BatchEntry.ok r.studentId p pr rl (t + i)
      | Except.error m => BatchEntry.err r.studentId m) := by
  induction rs generalizing t i with
  | nil => simp [predictBatch]
  | cons r rs ih =>
    cases i with
    | zero => simp [predictBatch]
    | succ n =>
      have harith : t + (n + 1) = t + 1 + n := by omega
      simp only [predictBatch, List.getElem?_cons_succ, harith]
      exact ih (t + 1) n

lemma predictBatch_mem_shape (a : IArtifact) (t : ℕ) (rs : List Record)
    (e : BatchEntry) (he : e ∈ predictBatch a t rs) :
    (e.isOk = true → e.riskOf = riskLevel e.probOf) ∧
    (e.isOk = false → e.riskOf = "") := by
  induction rs generalizing t with
  | nil => simp [predictBatch] at he
  | cons r rs ih =>
    simp only [predictBatch, List.mem_cons] at he
    rcases he with he | he
    · subst he
      rcases hp : predictDropoutRisk a r with m | ⟨p, pr, rl⟩
      · simp [BatchEntry.isOk, BatchEntry.riskOf]
      · have hb := predictDropoutRisk_ok_band a r p pr rl hp
        simp [BatchEntry.isOk, BatchEntry.riskOf, BatchEntry.probOf, hb]
    · exact ih (t + 1) he

lemma mem_sendAlerts_iff (results : List BatchEntry) (e : BatchEntry)
    (he : e ∈ results) :
    mkAlert e ∈ sendAlerts results ↔ highRiskThreshold < e.probOf := by
  constructor
  · intro h
    unfold sendAlerts at h
    rcases List.mem_map.mp h with ⟨e2, he2, heq⟩
    have hf := (List.mem_filter.mp he2).2
    have hprob : e2.probOf = e.probOf := congrArg Alert.probability heq
    rw [← hprob]
    simpa using hf
  · intro h
    unfold sendAlerts
    exact List.mem_map_of_mem _ (List.mem_filter.mpr ⟨he, by simpa using h⟩)

lemma currAccuracy_concat (l : List Snapshot) (s : Snapshot) :
    currAccuracy (l ++ [s]) = s.accuracy := by
  unfold currAccuracy
  rw [List.getLast?_concat]
  rfl

lemma prevAccuracy_concat (l : List Snapshot) (s lp : Snapshot)
    (hl : l.getLast? = some lp) :
    prevAccuracy (l ++ [s]) = lp.accuracy := by
  unfold prevAccuracy
  rw [List.dropLast_concat, hl]
  rfl

/-!
### The claims
-/

/-- Claim C1, corrected (counterexample `retrain_overwrites_active`): on a
batch satisfying the retrain preconditions, with an incumbent artifact
loaded, `retrain_model` returns the candidate model plus its holdout
accuracy — but it does NOT leave the active slot unchanged: it backs the
incumbent up to the backup slot and immediately saves the candidate
artifacts (inheriting the incumbent's encoders and feature contract,
stamped with the retraining time) to the active slot at `model_path`. -/
theorem retrain_saves_candidate (env : TrainEnv) (st : MMState)
    (df : DataFrame) (tc : String) (now : ℕ) (old : MMArtifacts)
    (hne : df.isEmptyDf = false) (htc : tc ∈ df.cols)
    (hlen : 10 ≤ df.rows.length) (hart : st.activeSlot = some old) :
    ∃ cand acc newArt,
      (retrainModel env st df tc now).1 = Except.ok (cand, acc) ∧
      (retrainModel env st df tc now).2.1.activeSlot = some newArt ∧
      newArt.model = cand ∧
      newArt.retrained_at = some now ∧
      newArt.feature_names = old.feature_names ∧
      newArt.label_encoders = old.label_encoders ∧
      (retrainModel env st df tc now).2.1.backupSlot = some old ∧
      (retrainModel env st df tc now).2.1.history = st.history ∧
      (retrainModel env st df tc now).2.2 =
        [SlotWrite.backup old, SlotWrite.active newArt] := by
  have c1 : ¬(df.isEmptyDf = true) := by simp [hne]
  have c2 : ¬¬(tc ∈ df.cols) := not_not_intro htc
  have c3 : ¬(df.rows.length < 10) := by omega
  unfold retrainModel
  rw [if_neg c1, if_neg c2, if_neg c3, hart]
  exact ⟨_, _, _, rfl, rfl, rfl, rfl, rfl, rfl, rfl, rfl, rfl⟩

/-- Witness for claim C1's amended theorem at a concrete valid 10-row
batch. -/
theorem retrain_saves_candidate_witness :
    dfTen.isEmptyDf = false ∧ "is_active" ∈ dfTen.cols ∧
    10 ≤ dfTen.rows.length ∧
    ∃ cand acc newArt,
      (retrainModel envDemo stPlain dfTen "is_active" 5).1 =
        Except.ok (cand, acc) ∧
      (retrainModel envDemo stPlain dfTen "is_active" 5).2.1.activeSlot =
        some newArt ∧
      newArt.model = cand ∧
      newArt.retrained_at = some 5 ∧
      newArt.feature_names = mmArtOne.feature_names ∧
      newArt.label_encoders = mmArtOne.label_encoders ∧
      (retrainModel envDemo stPlain dfTen "is_active" 5).2.1.backupSlot =
        some mmArtOne ∧
      (retrainModel envDemo stPlain dfTen "is_active" 5).2.1.history =
        stPlain.history ∧
      (retrainModel envDemo stPlain dfTen "is_active" 5).2.2 =
        [SlotWrite.backup mmArtOne, SlotWrite.active newArt] :=
  ⟨rfl, by decide, by decide,
   retrain_saves_candidate envDemo stPlain dfTen "is_active" 5 mmArtOne
     rfl (by decide) (by decide) rfl⟩

/-- Counterexample to claim C1 as stated: after a successful `retrain_model`
call on a valid 10-row batch the active artifact slot no longer holds the
pre-retrain artifact (the saved candidate carries `retrained_at = 5` while
the incumbent had none). -/
theorem retrain_overwrites_active :
    (retrainModel envDemo stPlain dfTen "is_active" 5).2.1.activeSlot ≠
      stPlain.activeSlot := by
  intro h
  have hra := congrArg (fun o => Option.map MMArtifacts.retrained_at o) h
  simp only [retrainModel, stPlain] at hra
  revert hra
  decide

/-- Claim C2, confirmed: whatever the batch, state and training outcome,
after `retrain_model` the pre-retrain active artifact is recoverable —
the active slot is untouched or the backup slot holds it — and the
artifact-store write trace is either empty or backs the incumbent up
strictly before writing the active slot. -/
theorem retrain_backup_invariant (env : TrainEnv) (st : MMState)
    (df : DataFrame) (tc : String) (now : ℕ) :
    ((retrainModel env st df tc now).2.1.activeSlot = st.activeSlot ∨
      (retrainModel env st df tc now).2.1.backupSlot = st.activeSlot) ∧
    ((retrainModel env st df tc now).2.2 = [] ∨
      ∃ old newArt, st.activeSlot = some old ∧
        (retrainModel env st df tc now).2.2 =
          [SlotWrite.backup old, SlotWrite.active newArt]) := by
  obtain ⟨act, bak, hist⟩ := st
  unfold retrainModel
  split_ifs with h1 h2 h3
  · exact ⟨Or.inl rfl, Or.inl rfl⟩
  · exact ⟨Or.inl rfl, Or.inl rfl⟩
  · cases act with
    | none => exact ⟨Or.inl rfl, Or.inl rfl⟩
    | some old => exact ⟨Or.inr rfl, Or.inr ⟨old, _, rfl, rfl⟩⟩
  · exact ⟨Or.inl rfl, Or.inl rfl⟩

/-- Claim C3, corrected (counterexample `abDecision_margin_counterexample`):
on a valid labeled batch with the incumbent loaded, `run_ab_test` returns
the candidate ("new") iff candidate accuracy exceeds incumbent accuracy
by more than 0.02 AND candidate F1 exceeds incumbent F1 by more than
0.02, and otherwise returns the incumbent ("old"). The margin test is
strict, so the spec's 0.80/0.70-vs-0.77/0.68 example (F1 margin exactly
0.02) is rejected, not promoted. -/
theorem runABTest_margin_rule (newModel : List ℚ → ℚ) (df : DataFrame)
    (tc : String) (st : MMState) (old : MMArtifacts)
    (hne : df.isEmptyDf = false) (htc : tc ∈ df.cols)
    (hart : st.activeSlot = some old) :
    (runABTest newModel df tc st = "new" ↔
      (abMetrics newModel df tc old).2.1 >
        (abMetrics newModel df tc old).1 + 0.02 ∧
      (abMetrics newModel df tc old).2.2.2 >
        (abMetrics newModel df tc old).2.2.1 + 0.02) ∧
    (runABTest newModel df tc st = "new" ∨
      runABTest newModel df tc st = "old") := by
  have c1 : ¬(df.isEmptyDf = true) := by simp [hne]
  have c2 : ¬¬(tc ∈ df.cols) := not_not_intro htc
  unfold runABTest
  rw [if_neg c1, if_neg c2, hart]
  unfold abDecision
  dsimp only
  split_ifs with hc
  · exact ⟨⟨fun _ => hc, fun _ => rfl⟩, Or.inl rfl⟩
  · refine ⟨⟨fun hh => ?_, fun hh => absurd hh hc⟩, Or.inr rfl⟩
    exact absurd hh (by decide)

/-- Witness for claim C3's amended theorem at a concrete labeled batch
where the candidate clearly wins both margins. -/
theorem runABTest_margin_rule_witness :
    dfThree.isEmptyDf = false ∧ "is_active" ∈ dfThree.cols ∧
    ((runABTest (fun _ => 1) dfThree "is_active" stZero = "new" ↔
      (abMetrics (fun _ => 1) dfThree "is_active" mmArtZero).2.1 >
        (abMetrics (fun _ => 1) dfThree "is_active" mmArtZero).1 + 0.02 ∧
      (abMetrics (fun _ => 1) dfThree "is_active" mmArtZero).2.2.2 >
        (abMetrics (fun _ => 1) dfThree "is_active" mmArtZero).2.2.1 + 0.02) ∧
    (runABTest (fun _ => 1) dfThree "is_active" stZero = "new" ∨
      runABTest (fun _ => 1) dfThree "is_active" stZero = "old")) ∧
    runABTest (fun _ => 1) dfThree "is_active" stZero = "new" :=
  ⟨rfl, by decide,
   runABTest_margin_rule (fun _ => 1) dfThree "is_active" stZero mmArtZero
     rfl (by decide) rfl,
   by decide⟩

/-- Counterexample to claim C3's example: at the spec's quoted metrics —
candidate accuracy 0.80 and F1 0.70 against incumbent 0.77 and 0.68 — the
promotion decision of `run_ab_test` keeps the incumbent, because the F1
margin is exactly 0.02 and the test requires strictly more than 0.02:
the accuracy margin passes but the F1 margin fails. -/
theorem abDecision_margin_counterexample :
    abDecision 0.77 0.80 0.68 0.70 = "old" ∧
    ¬(abDecision 0.77 0.80 0.68 0.70 = "new") ∧
    ((0.80 : ℚ) > 0.77 + 0.02) ∧ ¬((0.70 : ℚ) > 0.68 + 0.02) :=
  ⟨by decide, by decide, by decide, by decide⟩

/-- Claim C4, confirmed: on a non-empty labeled batch with the artifact
file present, `check_model_drift` signals drift iff the performance
history after the call holds at least two snapshots and the previous
snapshot's accuracy exceeds the freshly appended one by more than 0.05. -/
theorem checkModelDrift_rule (st : MMState) (df : DataFrame) (tc : String)
    (now : ℕ) (art : MMArtifacts)
    (hne : df.isEmptyDf = false) (htc : tc ∈ df.cols)
    (hart : st.activeSlot = some art) :
    ((checkModelDrift st df tc now).1 = true ↔
      2 ≤ (checkModelDrift st df tc now).2.history.length ∧
      prevAccuracy ((checkModelDrift st df tc now).2.history) -
        currAccuracy ((checkModelDrift st df tc now).2.history) > 0.05) := by
  unfold checkModelDrift
  rw [hne, hart]
  simp only [Bool.false_eq_true, if_false, htc, not_true_eq_false]
  cases hl : st.history.getLast? with
  | none =>
    have hnil : st.history = [] := List.getLast?_eq_none_iff.mp hl
    rw [hnil]
    simp [prevAccuracy, currAccuracy]
  | some lastPerf =>
    have hne2 : st.history ≠ [] := by
      intro hh; rw [hh] at hl; simp [List.getLast?] at hl
    have hlen : 1 ≤ st.history.length := List.length_pos.mpr hne2
    dsimp only
    split_ifs with hgt
    · simp only [true_iff]
      refine ⟨by simp; omega, ?_⟩
      rw [prevAccuracy_concat _ _ _ hl, currAccuracy_concat]
      exact hgt
    · simp only [false_iff, not_and, not_lt]
      intro hlen2
      rw [prevAccuracy_concat _ _ _ hl, currAccuracy_concat]
      simpa using hgt

/-- Witness for claim C4 at the spec's example accuracies: with a prior
snapshot at 0.90, a batch scoring 0.84 (drop 0.06) signals drift and a
batch scoring 0.86 (drop 0.04) does not. -/
theorem checkModelDrift_rule_witness :
    df84.isEmptyDf = false ∧ "is_active" ∈ df84.cols ∧
    ((checkModelDrift stDrift df84 "is_active" 1).1 = true ↔
      2 ≤ (checkModelDrift stDrift df84 "is_active" 1).2.history.length ∧
      prevAccuracy ((checkModelDrift stDrift df84 "is_active" 1).2.history) -
        currAccuracy ((checkModelDrift stDrift df84 "is_active" 1).2.history)
        > 0.05) ∧
    (checkModelDrift stDrift df84 "is_active" 1).1 = true ∧
    (checkModelDrift stDrift df86 "is_active" 1).1 = false :=
  ⟨rfl, by decide,
   checkModelDrift_rule stDrift df84 "is_active" 1 mmArtOne rfl (by decide)
     rfl,
   by decide, by decide⟩

/-- Claim C5, confirmed: a training batch that is empty, lacks the target
column, or has fewer than 10 rows makes `retrain_model` fail with the
`InsufficientData` precondition error (a `ValueError` in the source), and
on that failure nothing is written: the state — active slot, backup slot
and history — is exactly the pre-call state and the write trace is
empty. -/
theorem retrain_insufficient_data (env : TrainEnv) (st : MMState)
    (df : DataFrame) (tc : String) (now : ℕ)
    (h : df.isEmptyDf = true ∨ ¬(tc ∈ df.cols) ∨ df.rows.length < 10) :
    (∃ msg, (retrainModel env st df tc now).1 =
      Except.error (RetrainErr.insufficientData msg)) ∧
    (retrainModel env st df tc now).2.1 = st ∧
    (retrainModel env st df tc now).2.2 = [] := by
  unfold retrainModel
  split_ifs with h1 h2 h3
  · exact ⟨⟨_, rfl⟩, rfl, rfl⟩
  · exact ⟨⟨_, rfl⟩, rfl, rfl⟩
  · rcases h with h | h | h
    · exact absurd h h1
    · exact absurd h2 h
    · exact absurd h h3
  · exact ⟨⟨_, rfl⟩, rfl, rfl⟩

/-- Witness for claim C5 at the spec's example: a 5-row batch fails with
`InsufficientData` and leaves the artifact state untouched. -/
theorem retrain_insufficient_data_witness :
    (dfFive.isEmptyDf = true ∨ ¬("is_active" ∈ dfFive.cols) ∨
      dfFive.rows.length < 10) ∧
    (∃ msg, (retrainModel envDemo stPlain dfFive "is_active" 7).1 =
      Except.error (RetrainErr.insufficientData msg)) ∧
    (retrainModel envDemo stPlain dfFive "is_active" 7).2.1 = stPlain ∧
    (retrainModel envDemo stPlain dfFive "is_active" 7).2.2 = [] :=
  ⟨Or.inr (Or.inr (by decide)),
   retrain_insufficient_data envDemo stPlain dfFive "is_active" 7
     (Or.inr (Or.inr (by decide)))⟩

/-- Claim C6, confirmed: `predict_batch` yields exactly one entry per
input record; the entry at each index is the scored result of the record
at that index — an error entry keyed by the record's `student_id` when
scoring that record fails, a success entry otherwise — so one malformed
record never aborts the batch. On the concrete five-record batch whose
third record is malformed, scoring yields 4 successes and 1 error. -/
theorem predictBatch_isolation (a : IArtifact) (t : ℕ) (rs : List Record) :
    (predictBatch a t rs).length = rs.length ∧
    (∀ i : ℕ, (predictBatch a t rs)[i]? = (rs[i]?).map (fun r =>
      match predictDropoutRisk a r with
      | Except.ok (p, pr, rl) => BatchEntry.ok r.studentId p pr rl (t + i)
      | Except.error m => BatchEntry.err r.studentId m)) ∧
    (predictBatch artHalf 0 batchFive).countP BatchEntry.isOk = 4 ∧
    (predictBatch artHalf 0 batchFive).countP (fun e => !e.isOk) = 1 :=
  ⟨predictBatch_length a t rs, predictBatch_getElem a t rs,
   by decide, by decide⟩

/-- Claim C7, corrected (counterexample
`checkModelDrift_invalid_counterexample`): an empty labeled batch, or one
lacking the label column, does not make the drift evaluation fail with an
`InvalidInput` error — the call returns the normal no-drift verdict
`false` — but, as the claim states, no snapshot is appended: the state is
returned untouched. -/
theorem checkModelDrift_invalid_amended (st : MMState) (df : DataFrame)
    (tc : String) (now : ℕ)
    (h : df.isEmptyDf = true ∨ ¬(tc ∈ df.cols)) :
    checkModelDrift st df tc now = (false, st) := by
  unfold checkModelDrift
  rcases h with h | h
  · rw [h]
    simp
  · rcases hemp : df.isEmptyDf with hf | ht
    · simp [h]
    · simp

/-- Witness for claim C7's amended theorem at a concrete empty batch. -/
theorem checkModelDrift_invalid_amended_witness :
    (dfEmpty.isEmptyDf = true ∨ ¬("is_active" ∈ dfEmpty.cols)) ∧
    checkModelDrift stDrift dfEmpty "is_active" 1 = (false, stDrift) :=
  ⟨Or.inl rfl,
   checkModelDrift_invalid_amended stDrift dfEmpty "is_active" 1
     (Or.inl rfl)⟩

/-- Counterexample to claim C7 as stated: on an empty batch, and on a
batch lacking the label column, `check_model_drift` returns the ordinary
verdict `false` with the state unchanged — it does not fail with an
error. -/
theorem checkModelDrift_invalid_counterexample :
    checkModelDrift stDrift dfEmpty "is_active" 1 = (false, stDrift) ∧
    checkModelDrift stDrift dfNoLabel "is_active" 1 = (false, stDrift) :=
  ⟨rfl, rfl⟩

/-- Claim C8, corrected (counterexample `sendAlerts_boundary_counterexample`):
for entries of a processed batch, the monitor dispatches an alert exactly
when the entry's dropout probability strictly exceeds the 0.7 threshold.
High-band ("Red") results with probability above 0.7 are alerted and Low/
Medium-band ("Green"/"Amber") results never are, but a High-band result
sitting exactly at probability 0.7 receives no alert, because the band is
assigned at probability ≥ 0.7 while the alert filter requires > 0.7. -/
theorem sendAlerts_threshold (a : IArtifact) (t : ℕ) (rs : List Record)
    (e : BatchEntry) (he : e ∈ predictBatch a t rs) :
    (mkAlert e ∈ sendAlerts (predictBatch a t rs) ↔
      highRiskThreshold < e.probOf) ∧
    (e.riskOf = "Red" → 0.7 ≤ e.probOf) ∧
    ((e.riskOf = "Green" ∨ e.riskOf = "Amber") →
      e.probOf < 0.7 ∧ mkAlert e ∉ sendAlerts (predictBatch a t rs)) := by
  have hshape := predictBatch_mem_shape a t rs e he
  have hmem := mem_sendAlerts_iff (predictBatch a t rs) e he
  refine ⟨hmem, ?_, ?_⟩
  · intro hred
    cases hok : e.isOk with
    | false => rw [hshape.2 hok] at hred; simp at hred
    | true =>
      rw [hshape.1 hok] at hred
      exact (riskLevel_red_iff e.probOf).mp hred
  · intro hga
    have hthr : highRiskThreshold = 0.7 := rfl
    cases hok : e.isOk with
    | false =>
      rw [hshape.2 hok] at hga
      rcases hga with hga | hga <;> simp at hga
    | true =>
      have hband := hshape.1 hok
      have hlt : e.probOf < 0.7 := by
        rcases hga with hga | hga <;> rw [hband] at hga
        · have := (riskLevel_green_iff e.probOf).mp hga
          linarith
        · exact ((riskLevel_amber_iff e.probOf).mp hga).2
      refine ⟨hlt, fun hmem2 => ?_⟩
      have := hmem.mp hmem2
      rw [hthr] at this
      linarith

/-- Witness for claim C8's amended theorem at a concrete boundary batch. -/
theorem sendAlerts_threshold_witness :
    (BatchEntry.ok (Value.str "S1") 1 0.7 "Red" 0 ∈
      predictBatch artBoundary 0 [recDemo]) ∧
    (mkAlert (BatchEntry.ok (Value.str "S1") 1 0.7 "Red" 0) ∈
        sendAlerts (predictBatch artBoundary 0 [recDemo]) ↔
      highRiskThreshold <
        (BatchEntry.ok (Value.str "S1") 1 0.7 "Red" 0).probOf) :=
  ⟨by decide,
   (sendAlerts_threshold artBoundary 0 [recDemo]
     (BatchEntry.ok (Value.str "S1") 1 0.7 "Red" 0) (by decide)).1⟩

/-- Counterexample to claim C8 as stated: a scored record with dropout
probability exactly 0.7 falls in the High band ("Red"), yet the monitor
dispatches no alert for the batch containing it. -/
theorem sendAlerts_boundary_counterexample :
    predictBatch artBoundary 0 [recDemo] =
      [BatchEntry.ok (Value.str "S1") 1 0.7 "Red" 0] ∧
    (BatchEntry.ok (Value.str "S1") 1 0.7 "Red" 0).riskOf = "Red" ∧
    sendAlerts (predictBatch artBoundary 0 [recDemo]) = [] :=
  ⟨by decide, rfl, by decide⟩

/-- Claim C9, confirmed: the risk band is a total function of the dropout
probability with exactly the documented thresholds — probability < 0.3
gives the low band ("Green"), 0.3 ≤ p < 0.7 the medium band ("Amber"),
and p ≥ 0.7 the high band ("Red") — and every successful scoring call
assigns its result exactly that band of its probability. -/
theorem riskBand_thresholds (p : ℚ) :
    (riskLevel p = "Green" ↔ p < 0.3) ∧
    (riskLevel p = "Amber" ↔ 0.3 ≤ p ∧ p < 0.7) ∧
    (riskLevel p = "Red" ↔ 0.7 ≤ p) ∧
    (∀ (a : IArtifact) (r : Record) (pred prob : ℚ) (band : String),
      predictDropoutRisk a r = Except.ok (pred, prob, band) →
      band = riskLevel prob) :=
  ⟨riskLevel_green_iff p, riskLevel_amber_iff p, riskLevel_red_iff p,
   fun a r pred prob band h => predictDropoutRisk_ok_band a r pred prob band h⟩

/-- Witness for claim C9 at probability 0.5 and a concrete scoring call
landing exactly on the 0.7 boundary. -/
theorem riskBand_thresholds_witness :
    (riskLevel 0.5 = "Amber" ↔ (0.3 : ℚ) ≤ 0.5 ∧ (0.5 : ℚ) < 0.7) ∧
    "Red" = riskLevel 0.7 :=
  ⟨(riskBand_thresholds 0.5).2.1,
   (riskBand_thresholds 0.5).2.2.2 artBoundary recDemo 1 0.7 "Red" rfl⟩

/-- Claim C10, corrected (counterexample `predict_idempotence_counterexample`):
single-record scoring is a pure function of the record and the loaded
artifact — prediction, probability and risk band never vary across calls —
and batch entries agree across repeated passes on every field except
`timestamp`, which records the wall clock at the call and so differs
between passes. -/
theorem predictBatch_pure_up_to_clock (a : IArtifact) (rs : List Record)
    (t1 t2 : ℕ) :
    (predictBatch a t1 rs).map BatchEntry.eraseTime =
      (predictBatch a t2 rs).map BatchEntry.eraseTime := by
  induction rs generalizing t1 t2 with
  | nil => rfl
  | cons r rs ih =>
    simp only [predictBatch, List.map_cons]
    congr 1
    · rcases predictDropoutRisk a r with m | ⟨p, pr, rl⟩ <;> rfl
    · exact ih (t1 + 1) (t2 + 1)

/-- Counterexample to claim C10 as stated: scoring the same record twice
with the same artifact at different wall-clock instants yields batch
result objects that are not identical — their `timestamp` fields differ. -/
theorem predict_idempotence_counterexample :
    ¬(predictBatch artBoundary 0 [recDemo] =
      predictBatch artBoundary 1 [recDemo]) := by decide

end DropoutSystem
